import Mathlib

/-!
Verification development for the realtime canvas + note backend
(`src/main.py`, `src/schemas.py`).

The embedding models:
* inbound/outbound JSON values (`Json`), as produced by `receive_json`;
* the pydantic models `CanvasPoint`, `CanvasStroke`, `CanvasEvent` from
  `schemas.py`, together with their validation (`parseCanvasEvent` models
  `CanvasEvent(**{**data, "room": room})`);
* the `ConnectionManager` registry (`connect`, `disconnect`, `broadcast`);
* one iteration of each websocket session loop (`ws_canvas_step`,
  `ws_note_step`) and the note-connect phase (`ws_note_connect`);
* the store adapter, whose module `database.py` is not part of the sources;
  it is modelled from the spec's Store Adapter interface (§4.4, §6).

Numbers are modelled as rationals (JSON numbers are exact decimals, and the
only numeric logic in the program is the `0.5 ≤ size ≤ 50` range check, which
is exact on rationals).  Sends to peers are modelled as an environment
function `sendR : H → Except String Unit`; a `.error` result stands for the
exception a closed socket raises.
-/

/-- A JSON value as returned by `receive_json` (`json.loads`): object keys are
strings; numbers are modelled as rationals.  (Numeric-string coercion that
pydantic's lax mode would additionally accept for `float` fields is not
modelled; no property below depends on it.) -/
inductive Json where
  | null : Json
  | bool : Bool → Json
  | num : ℚ → Json
  | str : String → Json
  | arr : List Json → Json
  | obj : List (String × Json) → Json
deriving Repr

/-- `data.get(k)` / key lookup on a JSON object; `none` on non-objects.
Objects produced by `json.loads` have no duplicate keys, so first-match
lookup is exact. -/
def Json.lookup : Json → String → Option Json
  | .obj fields, k => fields.lookup k
  | _, _ => none

mutual
/-- Python `repr()` of a `json.loads` value (used by `str()` on containers).
The exact decimal rendering of floats is approximated (ints render exactly,
non-integral rationals as `num/den`); no claim depends on the rendering. -/
def pyRepr : Json → String
  | .null => "None"
  | .bool true => "True"
  | .bool false => "False"
  | .num q => if q.den = 1 then toString q.num else toString q.num ++ "/" ++ toString q.den
  | .str s => "\x27" ++ s ++ "\x27"
  | .arr xs => "[" ++ pyReprArr xs ++ "]"
  | .obj fs => "\x7b" ++ pyReprObj fs ++ "\x7d"

/-- Comma-separated `repr` of the elements of a JSON array. -/
def pyReprArr : List Json → String
  | [] => ""
  | [x] => pyRepr x
  | x :: xs => pyRepr x ++ ", " ++ pyReprArr xs

/-- Comma-separated `repr` of the entries of a JSON object. -/
def pyReprObj : List (String × Json) → String
  | [] => ""
  | [(k, v)] => "\x27" ++ k ++ "\x27: " ++ pyRepr v
  | (k, v) :: fs => "\x27" ++ k ++ "\x27: " ++ pyRepr v ++ ", " ++ pyReprObj fs
end

/-- Python `str()` applied to a `json.loads` value (used by
`content = str(data.get("content", ""))` in `ws_note`). -/
def pyStr : Json → String
  | .str s => s
  | j => pyRepr j

/-- `schemas.CanvasPoint`: `x: float`, `y: float`. -/
structure CanvasPoint where
  x : ℚ
  y : ℚ
deriving DecidableEq, Repr

/-- `schemas.CanvasStroke`: `color: str = "#ffffff"`,
`size: float = 2.0` with `ge=0.5, le=50`, `points: List[CanvasPoint] = []`. -/
structure CanvasStroke where
  color : String
  size : ℚ
  points : List CanvasPoint
deriving DecidableEq, Repr

/-- `schemas.CanvasEvent`: `stroke: CanvasStroke` (required),
`user_id: Optional[str] = None`, `room: str = "global"`. -/
structure CanvasEvent where
  stroke : CanvasStroke
  user_id : Option String
  room : String
deriving DecidableEq, Repr

/-- pydantic validation of a `float` field: accepts JSON numbers. -/
def parseFloat (j : Json) : Except String ℚ :=
  match j with
  | .num q => .ok q
  | _ => .error "Input should be a valid number"

/-- pydantic validation of a `str` field: accepts JSON strings only. -/
def parseString (j : Json) : Except String String :=
  match j with
  | .str s => .ok s
  | _ => .error "Input should be a valid string"

/-- pydantic validation of a nested `CanvasPoint`: the value must be a mapping
with numeric `x` and `y`; unknown keys are ignored (default `extra="ignore"`). -/
def parseCanvasPoint (j : Json) : Except String CanvasPoint :=
  match j with
  | .obj _ =>
    match j.lookup "x", j.lookup "y" with
    | some xj, some yj =>
      match parseFloat xj with
      | .error e => .error e
      | .ok x =>
        match parseFloat yj with
        | .error e => .error e
        | .ok y => .ok { x := x, y := y }
    | _, _ => .error "Field required: x, y"
  | _ => .error "Input should be a valid dictionary: CanvasPoint"

/-- Validation of the `points` list, element by element. -/
def parsePoints : List Json → Except String (List CanvasPoint)
  | [] => .ok []
  | j :: js =>
    match parseCanvasPoint j with
    | .error e => .error e
    | .ok p =>
      match parsePoints js with
      | .error e => .error e
      | .ok ps => .ok (p :: ps)

/-- The `color` field of a `CanvasStroke` mapping: a string, defaulting to
`"#ffffff"` when absent. -/
def parseColorField (j : Json) : Except String String :=
  match j.lookup "color" with
  | some v => parseString v
  | none => .ok "#ffffff"

/-- The `size` field of a `CanvasStroke` mapping: a number in
`[0.5, 50]` (`ge=0.5, le=50`), defaulting to `2.0` when absent. -/
def parseSizeField (j : Json) : Except String ℚ :=
  match j.lookup "size" with
  | some v =>
    match parseFloat v with
    | .error e => .error e
    | .ok q =>
      if mkRat 1 2 ≤ q ∧ q ≤ 50 then .ok q
      else .error "Input should be in the range [0.5, 50]"
  | none => .ok 2

/-- The `points` field of a `CanvasStroke` mapping: a list of
`CanvasPoint`s, defaulting to the empty list when absent. -/
def parsePointsField (j : Json) : Except String (List CanvasPoint) :=
  match j.lookup "points" with
  | some (.arr js) => parsePoints js
  | some _ => .error "Input should be a valid list"
  | none => .ok []

/-- pydantic validation of a nested `CanvasStroke`: a mapping whose fields
are validated by `parseColorField`, `parseSizeField` and `parsePointsField`;
unknown keys are ignored. -/
def parseCanvasStroke (j : Json) : Except String CanvasStroke :=
  match j with
  | .obj _ =>
    match parseColorField j with
    | .error e => .error e
    | .ok color =>
      match parseSizeField j with
      | .error e => .error e
      | .ok size =>
        match parsePointsField j with
        | .error e => .error e
        | .ok points => .ok { color := color, size := size, points := points }
  | _ => .error "Input should be a valid dictionary: CanvasStroke"

/-- The `user_id` field of the merged mapping: absent or `None` give `none`,
a string gives `some`, anything else fails validation. -/
def parseUserIdField (j : Json) : Except String (Option String) :=
  match j.lookup "user_id" with
  | none => .ok none
  | some .null => .ok none
  | some (.str s) => .ok (some s)
  | some _ => .error "Input should be a valid string: user_id"

/-- `CanvasEvent(**{**data, "room": room})` in `ws_canvas` (main.py line 105):
`data` must be a mapping (otherwise the `**data` splat raises `TypeError`,
caught by the same handler), `stroke` is required, `user_id` is an optional
string, and the `room` field is taken from the connection path, overriding any
client-supplied `room` key. -/
def parseCanvasEvent (data : Json) (room : String) : Except String CanvasEvent :=
  match data with
  | .obj _ =>
    match data.lookup "stroke" with
    | none => .error "Field required: stroke"
    | some sj =>
      match parseCanvasStroke sj with
      | .error e => .error e
      | .ok stroke =>
        match parseUserIdField data with
        | .error e => .error e
        | .ok uid => .ok { stroke := stroke, user_id := uid, room := room }
  | _ => .error "argument after ** must be a mapping"

example : parseCanvasEvent (.obj [("stroke", .obj [])]) "r" =
    .ok ⟨⟨"#ffffff", 2, []⟩, none, "r"⟩ := by rfl

example : parseCanvasEvent (.obj [("stroke", .obj [("size", .num 100)])]) "r" =
    .error "Input should be in the range [0.5, 50]" := by rfl

example : parseCanvasEvent
    (.obj [("stroke", .obj []), ("room", .str "evil")]) "r" =
    .ok ⟨⟨"#ffffff", 2, []⟩, none, "r"⟩ := by rfl

/-- An outbound websocket message (`§6` wire format): `{"type": "stroke",
"data": ...}`, `{"type": "error", ...}`, `{"type": "init", ...}` or
`{"type": "update", ...}`. -/
inductive OutMsg where
  | stroke : CanvasEvent → OutMsg
  | error : String → OutMsg
  | init : String → OutMsg
  | update : String → OutMsg
deriving DecidableEq, Repr

/-- Modelled from the spec: the Store Adapter state (`database.py` is not in
the sources).  `canvasevent` is the append-only log of persisted
`CanvasEvent`s (spec §3: "append-only log per room"); `note` maps a room to
the content of its single note document, `none` before the first write
(spec §3: "exactly one logical note document per room … created on first
write, overwritten on each subsequent write"). -/
structure Store where
  canvasevent : List CanvasEvent
  note : String → Option String

/-- The store before any write. -/
def Store.empty : Store := ⟨[], fun _ => none⟩

/-- Modelled from the spec: `get_documents("canvasevent", {"room": room},
limit=500)` — the Store Adapter `find(collectionKind, filter, limit)` returns
the stored documents matching the filter, capped at `limit` (spec §4.4, §6:
"order: store-defined, typically insertion order; must be capped"). -/
def get_documents (events : List CanvasEvent) (room : String) (limit : ℕ) :
    List CanvasEvent :=
  (events.filter (fun e => e.room = room)).take limit

/-- `GET /api/canvas/{room}` (`get_canvas_events` in main.py lines 60-71):
returns the stored events for the room with `limit=500`.  (The id/timestamp
stringification on lines 64-70 touches fields outside the model.) -/
def get_canvas_events (st : Store) (room : String) : List CanvasEvent :=
  get_documents st.canvasevent room 500

section Registry

variable {H : Type} [DecidableEq H]

/-- The `ConnectionManager` registry state (main.py lines 20-24): one
`room -> list of websockets` mapping per channel kind; an absent room key is
`none`.  Connection handles are an opaque type `H`. -/
structure ConnectionManager (H : Type) where
  canvas_rooms : String → Option (List H)
  note_rooms : String → Option (List H)

/-- The registry at process start: both mappings empty. -/
def ConnectionManager.empty : ConnectionManager H := ⟨fun _ => none, fun _ => none⟩

/-- `_get_rooms` (main.py lines 32-33): the canvas mapping when
`kind == "canvas"`, otherwise the note mapping. -/
def ConnectionManager.getRooms (m : ConnectionManager H) (kind : String) :
    String → Option (List H) :=
  if kind = "canvas" then m.canvas_rooms else m.note_rooms

/-- `rooms.setdefault(room, []); rooms[room].append(ws)` (main.py lines
29-30) on one mapping. -/
def bucketConnect (M : String → Option (List H)) (room : String) (ws : H) :
    String → Option (List H) :=
  fun r => if r = room then some ((M room).getD [] ++ [ws]) else M r

/-- `ConnectionManager.disconnect`'s body (main.py lines 37-40) on one
mapping: `if room in rooms and ws in rooms[room]: rooms[room].remove(ws);
if not rooms[room]: rooms.pop(room, None)`.  `list.remove` drops the first
occurrence, as `List.erase` does. -/
def bucketDisconnect (M : String → Option (List H)) (room : String) (ws : H) :
    String → Option (List H) :=
  match M room with
  | some l =>
    if ws ∈ l then
      fun r => if r = room then (if l.erase ws = [] then none else some (l.erase ws)) else M r
    else M
  | none => M

/-- `ConnectionManager.connect` (main.py lines 26-30), minus the transport
`accept`: append the handle to the (kind, room) bucket, creating it if
absent. -/
def ConnectionManager.connect (m : ConnectionManager H) (ws : H) (room kind : String) :
    ConnectionManager H :=
  if kind = "canvas" then { m with canvas_rooms := bucketConnect m.canvas_rooms room ws }
  else { m with note_rooms := bucketConnect m.note_rooms room ws }

/-- `ConnectionManager.disconnect` (main.py lines 35-40). -/
def ConnectionManager.disconnect (m : ConnectionManager H) (ws : H) (room kind : String) :
    ConnectionManager H :=
  if kind = "canvas" then { m with canvas_rooms := bucketDisconnect m.canvas_rooms room ws }
  else { m with note_rooms := bucketDisconnect m.note_rooms room ws }

/-- The loop body of `ConnectionManager.broadcast` (main.py lines 44-49):
send to each handle in order; `sendR ws` is the attempt, whose `.error`
outcome (the exception of a closed socket) is caught by the
`try/except: pass` and recorded rather than propagated, so the iteration
always continues with the remaining handles. -/
def broadcastLoop (sendR : H → Except String Unit) :
    List H → List (H × Except String Unit)
  | [] => []
  | ws :: rest => (ws, sendR ws) :: broadcastLoop sendR rest

/-- `ConnectionManager.broadcast` (main.py lines 42-49): iterate over
`rooms.get(room, [])` attempting a send to every handle.  The return type is
pure: no send failure escapes to the caller. -/
def ConnectionManager.broadcast (m : ConnectionManager H) (sendR : H → Except String Unit)
    (room kind : String) : List (H × Except String Unit) :=
  broadcastLoop sendR ((m.getRooms kind room).getD [])

end Registry

/-- The observable outcome of one iteration of a session-handler loop:
the store afterwards, the messages sent directly to the sender (in order),
the message handed to `manager.broadcast` for the room (if any), and whether
an exception escaped the iteration, terminating the session loop. -/
structure StepResult where
  store : Store
  senderMsgs : List OutMsg
  broadcastMsg : Option OutMsg
  raised : Bool

/-- One iteration of the `ws_canvas` receive loop (main.py lines 102-110) on
inbound `data`: validate via `CanvasEvent(**{**data, "room": room})`; on
success persist (`create_document`) and broadcast `{"type": "stroke", ...}`;
any exception — validation failure or store failure (`storeOk = false`) — is
caught by the inner `except Exception` and answered with an error reply to
the sender only.  Nothing in this iteration re-raises, so the loop always
continues. -/
def ws_canvas_step (room : String) (data : Json) (storeOk : Bool) (st : Store) :
    StepResult :=
  match parseCanvasEvent data room with
  | .error e => ⟨st, [.error e], none, false⟩
  | .ok event =>
    if storeOk then
      ⟨{ st with canvasevent := st.canvasevent ++ [event] }, [],
        some (.stroke event), false⟩
    else
      ⟨st, [.error "store failure"], none, false⟩

/-- One iteration of the `ws_note` receive loop (main.py lines 123-130) on
inbound `data`: if `data` is a mapping with `type == "update"`, coerce
`content` to a string (`str(data.get("content", ""))`), upsert the room's
note and broadcast `{"type": "update", ...}`; any other shape gets an
`"Invalid payload"` error reply.  A store failure (`storeOk = false`) on the
upsert is NOT caught here — only `WebSocketDisconnect` is handled (line
131) — so the exception escapes and the session loop terminates with no
reply (`raised = true`). -/
def ws_note_step (room : String) (data : Json) (storeOk : Bool) (st : Store) :
    StepResult :=
  match data with
  | .obj fs =>
    match (Json.obj fs).lookup "type" with
    | some (.str t) =>
      if t = "update" then
        let content := pyStr (((Json.obj fs).lookup "content").getD (.str ""))
        if storeOk then
          ⟨{ st with note := fun r => if r = room then some content else st.note r }, [],
            some (.update content), false⟩
        else
          ⟨st, [], none, true⟩
      else ⟨st, [.error "Invalid payload"], none, false⟩
    | _ => ⟨st, [.error "Invalid payload"], none, false⟩
  | _ => ⟨st, [.error "Invalid payload"], none, false⟩

/-- The connect phase of `ws_note` (main.py lines 117-121): register in the
note bucket, then send the sender the `init` snapshot
(`db["note"].find_one({"room": room}) or {"content": ""}`, modelled from the
spec's `findOne` as the `note` map).  Returns the new registry and the
messages sent to the sender, in order. -/
def ws_note_connect {H : Type} [DecidableEq H] (m : ConnectionManager H) (ws : H)
    (room : String) (st : Store) : ConnectionManager H × List OutMsg :=
  (m.connect ws room "note", [.init ((st.note room).getD "")])

/-- Any successfully validated event carries the connection's room: the
merge `{**data, "room": room}` makes the client-supplied `room` key
unreachable. -/
theorem parse_ok_room_eq {data : Json} {room : String} {e : CanvasEvent}
    (h : parseCanvasEvent data room = .ok e) : e.room = room := by
  unfold parseCanvasEvent at h
  split at h
  · split at h
    · exact Except.noConfusion h
    · split at h
      · exact Except.noConfusion h
      · split at h
        · exact Except.noConfusion h
        · injection h with h
          subst h
          rfl
  · exact Except.noConfusion h

/-- C1: every inbound canvas message processed by the canvas session handler
on a connection for room `R` that is persisted and broadcast yields a
`CanvasEvent` whose `room` field equals `R`, regardless of any room value in
the client-supplied message: the event is validated as
`CanvasEvent(**{**data, "room": room})`, the persisted document is that
event, and the broadcast payload is that event. -/
theorem ws_canvas_room_forced (room : String) (data : Json) (st : Store)
    (e : CanvasEvent) (h : parseCanvasEvent data room = .ok e) :
    e.room = room ∧
    (ws_canvas_step room data true st).store.canvasevent = st.canvasevent ++ [e] ∧
    (ws_canvas_step room data true st).broadcastMsg = some (.stroke e) := by
  refine ⟨parse_ok_room_eq h, ?_, ?_⟩ <;> simp [ws_canvas_step, h]

/-- Witness for C1: a client in room `"r"` claiming `room = "evil"` still
produces an event for `"r"`. -/
theorem ws_canvas_room_forced_witness :
    (⟨⟨"#ffffff", 2, []⟩, none, "r"⟩ : CanvasEvent).room = "r" ∧
    (ws_canvas_step "r" (.obj [("stroke", .obj []), ("room", .str "evil")])
        true Store.empty).store.canvasevent =
      Store.empty.canvasevent ++ [⟨⟨"#ffffff", 2, []⟩, none, "r"⟩] ∧
    (ws_canvas_step "r" (.obj [("stroke", .obj []), ("room", .str "evil")])
        true Store.empty).broadcastMsg =
      some (.stroke ⟨⟨"#ffffff", 2, []⟩, none, "r"⟩) :=
  ws_canvas_room_forced "r" (.obj [("stroke", .obj []), ("room", .str "evil")])
    Store.empty ⟨⟨"#ffffff", 2, []⟩, none, "r"⟩ (by rfl)

/-- C2: an inbound canvas message that fails `CanvasEvent` validation makes
the handler send the error to the sender only, persist nothing, broadcast
nothing, and keep the session loop running (`raised = false`); the stored
event set — indeed the whole store — is unchanged. -/
theorem ws_canvas_invalid_msg (room : String) (data : Json) (storeOk : Bool)
    (st : Store) (msg : String) (h : parseCanvasEvent data room = .error msg) :
    ws_canvas_step room data storeOk st = ⟨st, [.error msg], none, false⟩ := by
  simp [ws_canvas_step, h]

/-- Witness for C2: an out-of-range stroke size (`size = 100`) yields an
error reply only, with no persistence and no broadcast. -/
theorem ws_canvas_invalid_msg_witness :
    ws_canvas_step "r" (.obj [("stroke", .obj [("size", .num 100)])]) true
        Store.empty =
      ⟨Store.empty, [.error "Input should be in the range [0.5, 50]"], none,
        false⟩ :=
  ws_canvas_invalid_msg "r" (.obj [("stroke", .obj [("size", .num 100)])])
    true Store.empty "Input should be in the range [0.5, 50]" (by rfl)

/-- Every handle of the member list gets its own send attempt, in order. -/
theorem broadcastLoop_map_fst {H : Type} (sendR : H → Except String Unit) :
    ∀ l : List H, (broadcastLoop sendR l).map Prod.fst = l := by
  intro l
  induction l with
  | nil => rfl
  | cons ws rest ih => simp [broadcastLoop, ih]

/-- Membership version: a handle in the member list appears in the outcome
list paired with its own send result. -/
theorem broadcastLoop_mem {H : Type} (sendR : H → Except String Unit)
    (h : H) : ∀ l : List H, h ∈ l → (h, sendR h) ∈ broadcastLoop sendR l := by
  intro l
  induction l with
  | nil => intro hm; cases hm
  | cons ws rest ih =>
    intro hm
    rcases List.mem_cons.mp hm with hh | hh
    · subst hh; exact List.mem_cons_self _ _
    · exact List.mem_cons_of_mem _ (ih hh)

/-- C3: `broadcast(message, room, kind)` attempts a send to every handle of
the `(kind, room)` bucket: the attempted handles are exactly the bucket, in
order, whatever each send's outcome (`sendR` may fail on any subset), and a
handle's attempt is present in the outcome even when other sends failed.
`broadcast` is a total function into a pure result list, so no send failure
reaches the caller. -/
theorem broadcast_attempts_all {H : Type} [DecidableEq H]
    (m : ConnectionManager H) (sendR : H → Except String Unit)
    (room kind : String) :
    (m.broadcast sendR room kind).map Prod.fst = (m.getRooms kind room).getD [] ∧
    ∀ h, h ∈ (m.getRooms kind room).getD [] →
      (h, sendR h) ∈ m.broadcast sendR room kind := by
  exact ⟨broadcastLoop_map_fst sendR _, fun h hm => broadcastLoop_mem sendR h _ hm⟩

/-- Witness for C3: with members `[0, 1, 2]` and the send to `1` failing,
the send to `2` is still attempted and succeeds. -/
theorem broadcast_attempts_all_witness :
    ((2 : ℕ), Except.ok ()) ∈
      ConnectionManager.broadcast
        ⟨fun r => if r = "a" then some [0, 1, 2] else none, fun _ => none⟩
        (fun h => if h = 1 then Except.error "closed" else Except.ok ())
        "a" "canvas" :=
  (broadcast_attempts_all
    ⟨fun r => if r = "a" then some [0, 1, 2] else none, fun _ => none⟩
    (fun h => if h = 1 then Except.error "closed" else Except.ok ())
    "a" "canvas").2 2 (by decide)

/-- C8: `GET /api/canvas/{room}` returns at most 500 events — even when more
than 500 are stored — and every returned event belongs to the requested
room (the store query filters on `{"room": room}` with `limit=500`). -/
theorem get_canvas_events_spec (st : Store) (room : String) :
    (get_canvas_events st room).length ≤ 500 ∧
    ∀ e, e ∈ get_canvas_events st room → e.room = room := by
  constructor
  · exact List.length_take_le 500 _
  · intro e he
    have hf := List.take_subset 500 _ he
    have := List.mem_filter.mp hf
    simpa using this.2

/-- Witness for C8: a store holding 501 events for room `"r"` yields at most
500 of them. -/
theorem get_canvas_events_spec_witness :
    (get_canvas_events
      ⟨List.replicate 501 ⟨⟨"#ffffff", 2, []⟩, none, "r"⟩, fun _ => none⟩
      "r").length ≤ 500 :=
  (get_canvas_events_spec
    ⟨List.replicate 501 ⟨⟨"#ffffff", 2, []⟩, none, "r"⟩, fun _ => none⟩
    "r").1

/-- C6: the first message sent to a note-channel connection for room `R`
after it opens is `{type: "init", content: c}` with `c` the content stored
for `R` at connect time, and `c = ""` when no note document exists for
`R`. -/
theorem ws_note_connect_init {H : Type} [DecidableEq H]
    (m : ConnectionManager H) (ws : H) (room : String) (st : Store) :
    (ws_note_connect m ws room st).2.head? =
      some (.init ((st.note room).getD "")) ∧
    (st.note room = none → (ws_note_connect m ws room st).2 = [.init ""]) := by
  constructor
  · rfl
  · intro h
    simp [ws_note_connect, h]

/-- Witness for C6: connecting to a room with no stored note yields
`init ""` as the one connect-time message. -/
theorem ws_note_connect_init_witness :
    (ws_note_connect (ConnectionManager.empty (H := ℕ)) 0 "r" Store.empty).2 =
      [.init ""] :=
  (ws_note_connect_init (ConnectionManager.empty (H := ℕ)) 0 "r" Store.empty).2
    (by rfl)

/-- C7: an inbound note message that is a mapping with `type == "update"`
has its `content` coerced to a string (`str(data.get("content", ""))`,
missing content giving `""`), exactly that string is upserted as the room's
note content, and `{type: "update", content: <that string>}` is broadcast to
the room's note bucket — whose every member, the sender included when
registered, gets a send attempt — with no direct reply and no exception;
any other message shape yields an `"Invalid payload"` error to the sender
only, with the store untouched, nothing broadcast and the loop running. -/
theorem ws_note_update_spec {H : Type} [DecidableEq H] (room : String)
    (data : Json) (st : Store) :
    (∀ fs, data = .obj fs →
      (Json.obj fs).lookup "type" = some (.str "update") →
      (ws_note_step room data true st).store.note room =
        some (pyStr (((Json.obj fs).lookup "content").getD (.str ""))) ∧
      (∀ r, r ≠ room →
        (ws_note_step room data true st).store.note r = st.note r) ∧
      (ws_note_step room data true st).store.canvasevent = st.canvasevent ∧
      (ws_note_step room data true st).broadcastMsg =
        some (.update (pyStr (((Json.obj fs).lookup "content").getD (.str "")))) ∧
      (ws_note_step room data true st).senderMsgs = [] ∧
      (ws_note_step room data true st).raised = false ∧
      ((Json.obj fs).lookup "content" = none →
        pyStr (((Json.obj fs).lookup "content").getD (.str "")) = "")) ∧
    ((∀ fs, data = .obj fs →
        (Json.obj fs).lookup "type" ≠ some (.str "update")) →
      ws_note_step room data true st =
        ⟨st, [.error "Invalid payload"], none, false⟩) ∧
    (∀ (m : ConnectionManager H) (sendR : H → Except String Unit) (sender : H),
      sender ∈ (m.getRooms "note" room).getD [] →
      (sender, sendR sender) ∈ m.broadcast sendR room "note") := by
  refine ⟨?_, ?_, ?_⟩
  · intro fs hdata htype
    subst hdata
    refine ⟨?_, ?_, ?_, ?_, ?_, ?_, ?_⟩
    · simp [ws_note_step, htype]
    · intro r hr
      simp [ws_note_step, htype, hr]
    · simp [ws_note_step, htype]
    · simp [ws_note_step, htype]
    · simp [ws_note_step, htype]
    · simp [ws_note_step, htype]
    · intro hn
      rw [hn]
      rfl
  · intro hother
    match data with
    | .null => rfl
    | .bool _ => rfl
    | .num _ => rfl
    | .str _ => rfl
    | .arr _ => rfl
    | .obj fs =>
      have hne := hother fs rfl
      unfold ws_note_step
      rcases hty : (Json.obj fs).lookup "type" with _ | v
      · simp [hty]
      · rcases v with _ | _ | _ | t | _ | _ <;> simp [hty]
        intro ht
        exact hne (by rw [hty, ht])
  · intro m sendR sender hmem
    exact broadcastLoop_mem sendR sender _ hmem

/-- Witness for C7: an update message with content `"hello"` stores and
broadcasts exactly `"hello"`, with no direct reply. -/
theorem ws_note_update_spec_witness :
    (ws_note_step "r" (.obj [("type", .str "update"), ("content", .str "hello")])
        true Store.empty).store.note "r" = some "hello" ∧
    (ws_note_step "r" (.obj [("type", .str "update"), ("content", .str "hello")])
        true Store.empty).broadcastMsg = some (.update "hello") ∧
    (ws_note_step "r" (.obj [("type", .str "update"), ("content", .str "hello")])
        true Store.empty).senderMsgs = [] := by
  have h := (ws_note_update_spec (H := ℕ) "r"
    (.obj [("type", .str "update"), ("content", .str "hello")]) Store.empty).1
    [("type", .str "update"), ("content", .str "hello")] rfl (by rfl)
  exact ⟨h.1, h.2.2.2.1, h.2.2.2.2.1⟩

/-- C10: an inbound canvas message whose stroke mapping omits `points`,
`color` and `size` entirely passes validation: the persisted and broadcast
`CanvasEvent` gets the defaults `points = []`, `color = "#ffffff"` and
`size = 2.0` from the schema (the message itself must still carry the
required `stroke` key; here it also carries no `user_id`). -/
theorem ws_canvas_defaults (room : String) (fs g : List (String × Json))
    (st : Store)
    (hs : (Json.obj fs).lookup "stroke" = some (.obj g))
    (hc : (Json.obj g).lookup "color" = none)
    (hz : (Json.obj g).lookup "size" = none)
    (hp : (Json.obj g).lookup "points" = none)
    (hu : (Json.obj fs).lookup "user_id" = none) :
    parseCanvasEvent (.obj fs) room = .ok ⟨⟨"#ffffff", 2, []⟩, none, room⟩ ∧
    (ws_canvas_step room (.obj fs) true st).store.canvasevent =
      st.canvasevent ++ [⟨⟨"#ffffff", 2, []⟩, none, room⟩] ∧
    (ws_canvas_step room (.obj fs) true st).broadcastMsg =
      some (.stroke ⟨⟨"#ffffff", 2, []⟩, none, room⟩) := by
  have hstroke : parseCanvasStroke (.obj g) = .ok ⟨"#ffffff", 2, []⟩ := by
    simp [parseCanvasStroke, parseColorField, parseSizeField, parsePointsField,
      hc, hz, hp]
  have hparse : parseCanvasEvent (.obj fs) room =
      .ok ⟨⟨"#ffffff", 2, []⟩, none, room⟩ := by
    simp [parseCanvasEvent, hs, hstroke, parseUserIdField, hu]
  exact ⟨hparse, by simp [ws_canvas_step, hparse], by simp [ws_canvas_step, hparse]⟩

/-- Witness for C10: the message `{"stroke": {}}`. -/
theorem ws_canvas_defaults_witness :
    parseCanvasEvent (.obj [("stroke", .obj [])]) "r" =
      .ok ⟨⟨"#ffffff", 2, []⟩, none, "r"⟩ ∧
    (ws_canvas_step "r" (.obj [("stroke", .obj [])]) true
        Store.empty).store.canvasevent =
      Store.empty.canvasevent ++ [⟨⟨"#ffffff", 2, []⟩, none, "r"⟩] ∧
    (ws_canvas_step "r" (.obj [("stroke", .obj [])]) true
        Store.empty).broadcastMsg =
      some (.stroke ⟨⟨"#ffffff", 2, []⟩, none, "r"⟩) :=
  ws_canvas_defaults "r" [("stroke", .obj [])] [] Store.empty rfl rfl rfl rfl rfl

/-- Counterexample to C4: in the note session handler a persistence failure
on a valid update (`storeOk = false`) sends no error reply to the sender and
the exception escapes the loop (`raised = true`), terminating the session —
`ws_note`'s `try` only catches `WebSocketDisconnect` (main.py line 131),
unlike `ws_canvas`'s inner `except Exception`. -/
theorem ws_note_store_failure_cex :
    (ws_note_step "r" (.obj [("type", .str "update"), ("content", .str "x")])
        false Store.empty).senderMsgs = [] ∧
    (ws_note_step "r" (.obj [("type", .str "update"), ("content", .str "x")])
        false Store.empty).raised = true := by
  exact ⟨rfl, rfl⟩

/-- C4 (amended): a persistence failure on a valid inbound message is caught
only in the canvas session handler — there the sender gets an error reply,
nothing is persisted or broadcast, and the loop continues; in the note
session handler the failure propagates uncaught: no reply, nothing persisted
or broadcast, and the session loop terminates. -/
theorem store_failure_amended (room : String) (data : Json) (st : Store) :
    (∀ e, parseCanvasEvent data room = .ok e →
      ws_canvas_step room data false st =
        ⟨st, [.error "store failure"], none, false⟩) ∧
    (∀ fs, data = .obj fs →
      (Json.obj fs).lookup "type" = some (.str "update") →
      ws_note_step room data false st = ⟨st, [], none, true⟩) := by
  constructor
  · intro e he
    simp [ws_canvas_step, he]
  · intro fs hdata htype
    subst hdata
    simp [ws_note_step, htype]

/-- Witness for C4 (amended): concrete store failures in both handlers. -/
theorem store_failure_amended_witness :
    ws_canvas_step "r" (.obj [("stroke", .obj [])]) false Store.empty =
      ⟨Store.empty, [.error "store failure"], none, false⟩ ∧
    ws_note_step "r" (.obj [("type", .str "update"), ("content", .str "x")])
        false Store.empty =
      ⟨Store.empty, [], none, true⟩ :=
  ⟨(store_failure_amended "r" (.obj [("stroke", .obj [])]) Store.empty).1
      ⟨⟨"#ffffff", 2, []⟩, none, "r"⟩ (by rfl),
   (store_failure_amended "r"
      (.obj [("type", .str "update"), ("content", .str "x")]) Store.empty).2
      [("type", .str "update"), ("content", .str "x")] rfl (by rfl)⟩

section RegistryLemmas

variable {H : Type} [DecidableEq H]

/-- Deregistering from an absent bucket leaves the mapping untouched. -/
theorem bucketDisconnect_none {M : String → Option (List H)} {room : String}
    (ws : H) (h : M room = none) : bucketDisconnect M room ws = M := by
  simp [bucketDisconnect, h]

/-- Deregistering a handle that is not in the bucket leaves the mapping
untouched. -/
theorem bucketDisconnect_not_mem {M : String → Option (List H)}
    {room : String} {ws : H} {l : List H}
    (hM : M room = some l) (hws : ws ∉ l) : bucketDisconnect M room ws = M := by
  simp [bucketDisconnect, hM, hws]

/-- Deregistering never changes any other room's bucket. -/
theorem bucketDisconnect_other {M : String → Option (List H)} {room : String}
    (ws : H) (r : String) (hr : r ≠ room) :
    bucketDisconnect M room ws r = M r := by
  unfold bucketDisconnect
  cases hM : M room with
  | none => rfl
  | some l =>
    by_cases hws : ws ∈ l
    · simp [hws, hr]
    · simp [hws]

/-- Deregistering a present handle removes its first occurrence and pops the
bucket entry when it becomes empty. -/
theorem bucketDisconnect_mem {M : String → Option (List H)} {room : String}
    {ws : H} {l : List H} (hM : M room = some l) (hws : ws ∈ l) :
    bucketDisconnect M room ws room =
      if l.erase ws = [] then none else some (l.erase ws) := by
  simp [bucketDisconnect, hM, hws]

/-- Deregistering every member of a non-empty bucket, in order, removes the
bucket entry entirely. -/
theorem bucketDisconnect_drain {room : String} :
    ∀ (l : List H) (M : String → Option (List H)), M room = some l → l ≠ [] →
      (List.foldl (fun M w => bucketDisconnect M room w) M l) room = none := by
  intro l
  induction l with
  | nil => intro M _ hne; exact absurd rfl hne
  | cons a t ih =>
    intro M hM _
    have hstep : bucketDisconnect M room a room =
        if t = [] then none else some t := by
      rw [bucketDisconnect_mem hM (List.mem_cons_self a t), List.erase_cons_head]
    by_cases ht : t = []
    · subst ht
      simp only [if_pos rfl] at hstep
      simpa [List.foldl] using hstep
    · rw [List.foldl_cons]
      refine ih _ ?_ ht
      rw [hstep, if_neg ht]

/-- `disconnect` acts on the mapping selected by `kind` as
`bucketDisconnect`. -/
theorem getRooms_disconnect (m : ConnectionManager H) (ws : H)
    (room kind : String) :
    (m.disconnect ws room kind).getRooms kind =
      bucketDisconnect (m.getRooms kind) room ws := by
  by_cases hk : kind = "canvas" <;>
    simp [ConnectionManager.disconnect, ConnectionManager.getRooms, hk]

/-- A disconnect that fixes the selected mapping fixes the whole registry. -/
theorem disconnect_eq_self {m : ConnectionManager H} {ws : H}
    {room kind : String}
    (h : bucketDisconnect (m.getRooms kind) room ws = m.getRooms kind) :
    m.disconnect ws room kind = m := by
  cases m with
  | mk c n =>
    by_cases hk : kind = "canvas"
    · rw [ConnectionManager.getRooms, if_pos hk] at h
      simp [ConnectionManager.disconnect, hk, h]
    · rw [ConnectionManager.getRooms, if_neg hk] at h
      simp [ConnectionManager.disconnect, hk, h]

/-- Folding `disconnect` over a handle list tracks the selected mapping. -/
theorem foldl_disconnect_getRooms (room kind : String) :
    ∀ (l : List H) (m : ConnectionManager H),
      (List.foldl (fun mm w => mm.disconnect w room kind) m l).getRooms kind =
        List.foldl (fun M w => bucketDisconnect M room w) (m.getRooms kind) l := by
  intro l
  induction l with
  | nil => intro m; rfl
  | cons a t ih =>
    intro m
    rw [List.foldl_cons, List.foldl_cons, ih, getRooms_disconnect]

end RegistryLemmas

/-- C5: deregistration semantics of the registry.  Deregistering from an
absent bucket, or a handle absent from its bucket (in particular a second
deregistration of the same handle), is a no-op on the whole registry and
never fails; other rooms' buckets and the other channel kind's mapping are
untouched; deregistering a present handle removes it, popping the bucket
entry when it empties; and after every member of a bucket deregisters, no
entry for that room remains. -/
theorem disconnect_spec {H : Type} [DecidableEq H] (m : ConnectionManager H)
    (ws : H) (room kind : String) :
    (m.getRooms kind room = none → m.disconnect ws room kind = m) ∧
    (∀ l, m.getRooms kind room = some l → ws ∉ l →
      m.disconnect ws room kind = m) ∧
    (∀ r, r ≠ room →
      (m.disconnect ws room kind).getRooms kind r = m.getRooms kind r) ∧
    (∀ l, m.getRooms kind room = some l → ws ∈ l →
      (m.disconnect ws room kind).getRooms kind room =
        if l.erase ws = [] then none else some (l.erase ws)) ∧
    (kind = "canvas" →
      (m.disconnect ws room kind).note_rooms = m.note_rooms) ∧
    (kind ≠ "canvas" →
      (m.disconnect ws room kind).canvas_rooms = m.canvas_rooms) ∧
    (∀ l, m.getRooms kind room = some l → l ≠ [] →
      (List.foldl (fun mm w => mm.disconnect w room kind) m l).getRooms kind
        room = none) := by
  refine ⟨?_, ?_, ?_, ?_, ?_, ?_, ?_⟩
  · intro h
    exact disconnect_eq_self (bucketDisconnect_none ws h)
  · intro l hM hws
    exact disconnect_eq_self (bucketDisconnect_not_mem hM hws)
  · intro r hr
    rw [getRooms_disconnect]
    exact bucketDisconnect_other ws r hr
  · intro l hM hws
    rw [getRooms_disconnect]
    exact bucketDisconnect_mem hM hws
  · intro hk
    simp [ConnectionManager.disconnect, hk]
  · intro hk
    simp [ConnectionManager.disconnect, hk]
  · intro l hM hne
    rw [foldl_disconnect_getRooms]
    exact bucketDisconnect_drain l _ hM hne

/-- Witness for C5: on a bucket `[0, 1]` for room `"a"`, deregistering the
absent handle `5` is a no-op, and deregistering both members leaves no
entry. -/
theorem disconnect_spec_witness :
    ConnectionManager.disconnect
        (⟨fun r => if r = "a" then some [0, 1] else none, fun _ => none⟩ :
          ConnectionManager ℕ) 5 "a" "canvas" =
      ⟨fun r => if r = "a" then some [0, 1] else none, fun _ => none⟩ ∧
    (List.foldl (fun mm w => mm.disconnect w "a" "canvas")
        (⟨fun r => if r = "a" then some [0, 1] else none, fun _ => none⟩ :
          ConnectionManager ℕ) [0, 1]).getRooms "canvas" "a" = none :=
  ⟨(disconnect_spec
      (⟨fun r => if r = "a" then some [0, 1] else none, fun _ => none⟩ :
        ConnectionManager ℕ) 5 "a" "canvas").2.1 [0, 1] (by decide) (by decide),
   (disconnect_spec
      (⟨fun r => if r = "a" then some [0, 1] else none, fun _ => none⟩ :
        ConnectionManager ℕ) 5 "a" "canvas").2.2.2.2.2.2 [0, 1] (by decide)
      (by decide)⟩

section HandleInvariant

variable {H : Type} [DecidableEq H]

/-- The per-kind uniqueness invariant on one registry mapping: every handle
occurs at most once in its bucket, and in at most one room's bucket. -/
def BucketInv (M : String → Option (List H)) : Prop :=
  ∀ ws : H,
    (∀ r l, M r = some l → List.count ws l ≤ 1) ∧
    (∀ r1 r2 l1 l2, M r1 = some l1 → M r2 = some l2 →
      ws ∈ l1 → ws ∈ l2 → r1 = r2)

/-- The empty mapping satisfies the invariant. -/
theorem bucketInv_empty : BucketInv (fun _ => none : String → Option (List H)) := by
  intro ws
  constructor
  · intro r l h
    exact Option.noConfusion h
  · intro r1 r2 l1 l2 h1
    exact Option.noConfusion h1

/-- Registering a handle that is in no bucket preserves the invariant. -/
theorem bucketInv_connect {M : String → Option (List H)} {ws : H}
    {room : String} (hinv : BucketInv M)
    (hfresh : ∀ r l, M r = some l → ws ∉ l) :
    BucketInv (bucketConnect M room ws) := by
  intro ws'
  constructor
  · intro r l hl
    by_cases hr : r = room
    · subst hr
      simp only [bucketConnect, if_pos rfl] at hl
      injection hl with hl
      subst hl
      rw [List.count_append]
      by_cases hw : ws' = ws
      · subst hw
        have hbase : List.count ws' ((M r).getD []) = 0 := by
          cases hM : M r with
          | none => simp
          | some l0 =>
            simp only [Option.getD_some]
            exact List.count_eq_zero.mpr (hfresh r l0 hM)
        simp [hbase]
      · have hone : List.count ws' [ws] = 0 := by
          simp [List.count_singleton']
          exact fun h => absurd h.symm hw
        rw [hone]
        cases hM : M r with
        | none => simp
        | some l0 =>
          simpa using ((hinv ws').1 r l0 hM)
    · simp only [bucketConnect, if_neg hr] at hl
      exact (hinv ws').1 r l hl
  · intro r1 r2 l1 l2 h1 h2 m1 m2
    by_cases hr1 : r1 = room <;> by_cases hr2 : r2 = room
    · rw [hr1, hr2]
    · exfalso
      subst hr1
      simp only [bucketConnect, if_pos rfl, if_neg hr2] at h1 h2
      injection h1 with h1
      subst h1
      by_cases hw : ws' = ws
      · subst hw
        exact hfresh r2 l2 h2 m2
      · rcases List.mem_append.mp m1 with hb | hs
        · cases hM : M r1 with
          | none => rw [hM] at hb; cases hb
          | some l0 =>
            rw [hM, Option.getD_some] at hb
            exact hr2 (((hinv ws').2 r1 r2 l0 l2 hM h2 hb m2).symm)
        · exact hw (List.mem_singleton.mp hs)
    · exfalso
      subst hr2
      simp only [bucketConnect, if_pos rfl, if_neg hr1] at h1 h2
      injection h2 with h2
      subst h2
      by_cases hw : ws' = ws
      · subst hw
        exact hfresh r1 l1 h1 m1
      · rcases List.mem_append.mp m2 with hb | hs
        · cases hM : M r2 with
          | none => rw [hM] at hb; cases hb
          | some l0 =>
            rw [hM, Option.getD_some] at hb
            exact hr1 ((hinv ws').2 r1 r2 l1 l0 h1 hM m1 hb)
        · exact hw (List.mem_singleton.mp hs)
    · simp only [bucketConnect, if_neg hr1, if_neg hr2] at h1 h2
      exact (hinv ws').2 r1 r2 l1 l2 h1 h2 m1 m2

/-- Deregistering any handle preserves the invariant. -/
theorem bucketInv_disconnect {M : String → Option (List H)} {ws : H}
    {room : String} (hinv : BucketInv M) :
    BucketInv (bucketDisconnect M room ws) := by
  cases hM : M room with
  | none => rw [bucketDisconnect_none ws hM]; exact hinv
  | some l =>
    by_cases hws : ws ∈ l
    · have hN : bucketDisconnect M room ws =
          fun r => if r = room then
            (if l.erase ws = [] then none else some (l.erase ws))
          else M r := by
        simp [bucketDisconnect, hM, hws]
      rw [hN]
      intro ws'
      constructor
      · intro r l1 h1
        by_cases hr : r = room
        · subst hr
          simp only [if_pos rfl] at h1
          by_cases he : l.erase ws = []
          · rw [if_pos he] at h1
            exact Option.noConfusion h1
          · rw [if_neg he] at h1
            injection h1 with h1
            subst h1
            exact le_trans ((List.erase_sublist ws l).count_le ws')
              ((hinv ws').1 r l hM)
        · simp only [if_neg hr] at h1
          exact (hinv ws').1 r l1 h1
      · intro r1 r2 l1 l2 h1 h2 m1 m2
        have hmem : ∀ r l1, (if r = room then
              (if l.erase ws = [] then none else some (l.erase ws))
            else M r) = some l1 → ws' ∈ l1 →
            ∃ l0, M r = some l0 ∧ ws' ∈ l0 := by
          intro r l1 h1 m1
          by_cases hr : r = room
          · subst hr
            by_cases he : l.erase ws = []
            · rw [if_pos rfl, if_pos he] at h1
              exact Option.noConfusion h1
            · rw [if_pos rfl, if_neg he] at h1
              injection h1 with h1
              subst h1
              exact ⟨l, hM, List.mem_of_mem_erase m1⟩
          · rw [if_neg hr] at h1
            exact ⟨l1, h1, m1⟩
        obtain ⟨l0, hl0, hm0⟩ := hmem r1 l1 h1 m1
        obtain ⟨l3, hl3, hm3⟩ := hmem r2 l2 h2 m2
        exact (hinv ws').2 r1 r2 l0 l3 hl0 hl3 hm0 hm3
    · rw [bucketDisconnect_not_mem hM hws]
      exact hinv

/-- `connect` acts on the mapping selected by `kind` as `bucketConnect`. -/
theorem getRooms_connect (m : ConnectionManager H) (ws : H)
    (room kind : String) :
    (m.connect ws room kind).getRooms kind =
      bucketConnect (m.getRooms kind) room ws := by
  by_cases hk : kind = "canvas" <;>
    simp [ConnectionManager.connect, ConnectionManager.getRooms, hk]

/-- `connect` on one kind leaves the other kind's mapping unchanged. -/
theorem connect_other_kind (m : ConnectionManager H) (ws : H)
    (room kind : String) :
    ((kind = "canvas" → (m.connect ws room kind).note_rooms = m.note_rooms) ∧
     (kind ≠ "canvas" →
       (m.connect ws room kind).canvas_rooms = m.canvas_rooms)) := by
  constructor <;> intro hk <;> simp [ConnectionManager.connect, hk]

/-- Registry states reachable through the session handlers' operations.
A websocket object is created per connection and registered exactly once, on
open; hence every `connect` is for a handle not currently registered in that
kind's mapping.  `disconnect` may happen at any time, any number of times. -/
inductive Reachable : ConnectionManager H → Prop where
  | empty : Reachable ConnectionManager.empty
  | connect {m : ConnectionManager H} (ws : H) (room kind : String) :
      Reachable m → (∀ r l, m.getRooms kind r = some l → ws ∉ l) →
      Reachable (m.connect ws room kind)
  | disconnect {m : ConnectionManager H} (ws : H) (room kind : String) :
      Reachable m → Reachable (m.disconnect ws room kind)

/-- Both mappings of a reachable registry satisfy the invariant. -/
theorem reachable_bucketInv {m : ConnectionManager H} (hr : Reachable m) :
    BucketInv m.canvas_rooms ∧ BucketInv m.note_rooms := by
  induction hr with
  | empty => exact ⟨bucketInv_empty, bucketInv_empty⟩
  | @connect m0 ws room kind _ hfresh ih =>
    by_cases hk : kind = "canvas"
    · subst hk
      constructor
      · rw [show (m0.connect ws room "canvas").canvas_rooms =
            bucketConnect m0.canvas_rooms room ws by
            simp [ConnectionManager.connect]]
        refine bucketInv_connect ih.1 ?_
        intro r l hl
        refine hfresh r l ?_
        simpa [ConnectionManager.getRooms] using hl
      · rw [(connect_other_kind m0 ws room "canvas").1 rfl]
        exact ih.2
    · constructor
      · rw [(connect_other_kind m0 ws room kind).2 hk]
        exact ih.1
      · rw [show (m0.connect ws room kind).note_rooms =
            bucketConnect m0.note_rooms room ws by
            simp [ConnectionManager.connect, hk]]
        refine bucketInv_connect ih.2 ?_
        intro r l hl
        refine hfresh r l ?_
        simpa [ConnectionManager.getRooms, hk] using hl
  | @disconnect m0 ws room kind _ ih =>
    by_cases hk : kind = "canvas"
    · subst hk
      constructor
      · rw [show (m0.disconnect ws room "canvas").canvas_rooms =
            bucketDisconnect m0.canvas_rooms room ws by
            simp [ConnectionManager.disconnect]]
        exact bucketInv_disconnect ih.1
      · rw [show (m0.disconnect ws room "canvas").note_rooms = m0.note_rooms by
            simp [ConnectionManager.disconnect]]
        exact ih.2
    · constructor
      · rw [show (m0.disconnect ws room kind).canvas_rooms = m0.canvas_rooms by
            simp [ConnectionManager.disconnect, hk]]
        exact ih.1
      · rw [show (m0.disconnect ws room kind).note_rooms =
            bucketDisconnect m0.note_rooms room ws by
            simp [ConnectionManager.disconnect, hk]]
        exact bucketInv_disconnect ih.2

end HandleInvariant

/-- C9: in every registry state reachable through the session handlers'
register/deregister operations, a connection handle appears in at most one
`(kind, room)` bucket per channel kind, and at most once inside that
bucket. -/
theorem reachable_handle_unique {H : Type} [DecidableEq H]
    {m : ConnectionManager H} (hr : Reachable m) (kind : String) (ws : H) :
    (∀ r l, m.getRooms kind r = some l → List.count ws l ≤ 1) ∧
    (∀ r1 r2 l1 l2, m.getRooms kind r1 = some l1 →
      m.getRooms kind r2 = some l2 → ws ∈ l1 → ws ∈ l2 → r1 = r2) := by
  have hinv := reachable_bucketInv hr
  by_cases hk : kind = "canvas"
  · simp only [ConnectionManager.getRooms, if_pos hk]
    exact ⟨(hinv.1 ws).1, (hinv.1 ws).2⟩
  · simp only [ConnectionManager.getRooms, if_neg hk]
    exact ⟨(hinv.2 ws).1, (hinv.2 ws).2⟩

/-- Witness for C9: the state reached by registering handles `0` and `1` in
canvas room `"a"` satisfies the count bound for handle `0` in that room's
bucket. -/
theorem reachable_handle_unique_witness :
    List.count (0 : ℕ)
      (((((ConnectionManager.empty (H := ℕ)).connect 0 "a" "canvas").connect 1
        "a" "canvas").getRooms "canvas" "a").getD []) ≤ 1 := by
  have h1 : Reachable ((ConnectionManager.empty (H := ℕ)).connect 0 "a" "canvas") :=
    Reachable.connect 0 "a" "canvas" Reachable.empty
      (by intro r l hl; exact Option.noConfusion hl)
  have h2 : Reachable (((ConnectionManager.empty (H := ℕ)).connect 0 "a"
      "canvas").connect 1 "a" "canvas") :=
    Reachable.connect 1 "a" "canvas" h1
      (by
        intro r l hl
        have hl2 : (if r = "a" then some ([] ++ [0]) else none) = some l := hl
        by_cases hr : r = "a"
        · rw [if_pos hr] at hl2
          injection hl2 with hl2
          subst hl2
          decide
        · rw [if_neg hr] at hl2
          exact Option.noConfusion hl2)
  exact (reachable_handle_unique h2 "canvas" 0).1 "a" [0, 1] (by decide)
